import Mathlib

/-!
Shallow embedding of `src/watchdog/watchmedo.py` (repository rayleyva/watchdog).

The embedding translates the pure data flow of the script into Lean:

* Pattern handling (`parse_patterns`, `path_split`, `add_to_sys_path`) is
  translated directly; the Python `str.split` corresponds to `String.splitOn`
  and `list.insert` to `list_insert`.
* The trick scheduler (`check_trick_has_key`, `schedule_tricks`) is translated
  with explicit state passing: the logging side effect becomes a log list, the
  global `uuid.uuid1().hex` generator becomes a counter supplying fresh
  identifiers, and an uncaught Python exception becomes a `some`-valued
  `Option PyError` component that short-circuits the remaining iterations of
  each loop, exactly as exception propagation aborts the Python loops.
* The `Observer` class is imported by the script from the watchdog package and
  is not part of the embedded file; its state and methods are modelled from the
  spec (Watch Session / Observer Handle contract).
* `tricks_from` is split into its startup phase (`tricks_from` over the list of
  configuration files) and its interrupt-driven shutdown phase
  (`interrupt_shutdown`), which in the script run before and after the
  sleep-poll loop. The shutdown loops additionally record a trace of the
  observer method calls they perform, so ordering properties can be stated, and
  take a failure oracle describing which external calls raise.
* Python name resolution for the `raise KeyError(... % (CONFIG_KEY_TRICKS,
  input_file))` statement on line 134 is embedded by listing the names bound in
  the module and in the function body and resolving the free names of the
  expression in evaluation order.
-/

namespace Watchmedo

/-- Values of trick constructor arguments; kept opaquely as strings, since the
script only passes them through from the configuration to the handler
constructor. -/
abbrev Arg := String

/-- An instantiated trick event handler: the resolved class together with the
positional and keyword arguments it was constructed from
(`TrickClass(*trick_args, **trick_kwargs)`, line 113). -/
structure Handler where
  className : String
  args : List Arg
  kwargs : List (String × Arg)
  deriving DecidableEq, Repr

/-- One registration on an observer: `observer.schedule(identifier,
event_handler, paths, recursive)` (line 90 / line 116). -/
structure WatchSession where
  identifier : Nat
  handler : Handler
  paths : List String
  recursive : Bool
  deriving DecidableEq, Repr

/-- Modelled from the spec: the `Observer` class is imported from the watchdog
package and is not part of the embedded source file. Per the Watch Session /
Observer Handle contract it holds a registration table of sessions and has the
lifecycle Idle, Running, Stopping, Stopped, with a final `join`. -/
structure Observer where
  sessions : List WatchSession
  running : Bool
  stopped : Bool
  joined : Bool
  deriving DecidableEq, Repr

/-- A freshly constructed observer (`observer = Observer()`): Idle, no
sessions. -/
def Observer.new : Observer := ⟨[], false, false, false⟩

/-- Modelled from the spec: `schedule(identifier, handler, paths, recursive)`
adds a WatchSession to the registration table. -/
def Observer.schedule (o : Observer) (identifier : Nat) (handler : Handler)
    (paths : List String) (recursive : Bool) : Observer :=
  { o with sessions := o.sessions ++ [⟨identifier, handler, paths, recursive⟩] }

/-- Modelled from the spec: `start()` moves the handle from Idle to Running. -/
def Observer.start (o : Observer) : Observer := { o with running := true }

/-- Modelled from the spec: `unschedule()` with the identifier omitted removes
all sessions registered on the handle. -/
def Observer.unschedule_all (o : Observer) : Observer := { o with sessions := [] }

/-- Modelled from the spec: `stop()` moves the handle to Stopped and releases
the observation resource. -/
def Observer.stop (o : Observer) : Observer := { o with running := false, stopped := true }

/-- Modelled from the spec: `join()` blocks until the background activity has
terminated; recorded here as a flag. -/
def Observer.join (o : Observer) : Observer := { o with joined := true }

/-- The observer methods invoked by the shutdown path of `tricks_from`. -/
inductive ShutdownOp where
  | unschedule
  | stop
  | join
  deriving DecidableEq, BEq, Repr

/-- The Python exceptions that the embedded code paths can raise. -/
inductive PyError where
  | resolutionError (name : String)
  | instantiationError (name : String)
  | ioError (file : String)
  | keyError (msg : String)
  | nameError (name : String)
  | shutdownError (index : Nat) (op : ShutdownOp)
  deriving DecidableEq, Repr

/-- The value mapping of one trick entry; the script reads only the keys
`args` and `kwargs` from it (lines 106-110), each of which may be absent. -/
structure TrickValue where
  args : Option (List Arg)
  kwargs : Option (List (String × Arg))
  deriving DecidableEq, Repr

/-- One trick specification: a decoded one-key mapping from handler identifier
to its value mapping; `trick.items()` (line 105) yields its entries in order. -/
abbrev Trick := List (String × TrickValue)

/-- Membership test for the only two keys the script ever looks up in a trick
value mapping (`key not in trick`, line 73). -/
def TrickValue.hasKey (t : TrickValue) (key : String) : Bool :=
  if key = "args" then t.args.isSome
  else if key = "kwargs" then t.kwargs.isSome
  else false

/-- The warning text of `logging.warn("Key `%s' not found for trick `%s'. Typo
or missing?", key, trick_name)` (line 74), with the two format arguments
substituted. -/
def missing_key_warning (key trick_name : String) : String :=
  "Key " ++ key ++ " not found for trick " ++ trick_name ++ ". Typo or missing?"

/-- `check_trick_has_key(trick_name, trick, key)` (lines 72-74): logs a warning
when `key` is absent from the trick value mapping. The logging side effect is
made explicit by threading the log list. -/
def check_trick_has_key (log : List String) (trick_name : String)
    (trick : TrickValue) (key : String) : List String :=
  if trick.hasKey key then log else log ++ [missing_key_warning key trick_name]

/-- The state threaded through `schedule_tricks`: the log, the fresh-identifier
counter standing for `uuid.uuid1().hex` (line 115), and the observer being
populated. -/
structure SchedState where
  log : List String
  nextId : Nat
  obs : Observer
  deriving DecidableEq, Repr

/-- The body of the inner loop of `schedule_tricks` (lines 105-116) for one
`(trick_name, trick_value)` item: warn about missing `kwargs` and `args` keys,
default them to empty, resolve the class (`load_class`, line 112), instantiate
the handler (line 113) and register it under a fresh identifier (lines
115-116). Resolution and instantiation are external calls that may raise; a
raise is returned as a `some` error. -/
def schedule_trick_item (load_class : String → Option String)
    (instantiate : String → List Arg → List (String × Arg) → Option Handler)
    (watch_path : String) (st : SchedState)
    (trick_name : String) (trick_value : TrickValue) :
    SchedState × Option PyError :=
  let log := check_trick_has_key st.log trick_name trick_value "kwargs"
  let log := check_trick_has_key log trick_name trick_value "args"
  let trick_kwargs := trick_value.kwargs.getD []
  let trick_args := trick_value.args.getD []
  match load_class trick_name with
  | none => (⟨log, st.nextId, st.obs⟩, some (PyError.resolutionError trick_name))
  | some cls =>
    match instantiate cls trick_args trick_kwargs with
    | none => (⟨log, st.nextId, st.obs⟩, some (PyError.instantiationError trick_name))
    | some handler =>
      (⟨log, st.nextId + 1, st.obs.schedule st.nextId handler [watch_path] true⟩, none)

/-- The inner loop `for trick_name, trick_value in trick.items()` (line 105):
an uncaught exception from one item aborts the remaining items. -/
def schedule_trick_items (load_class : String → Option String)
    (instantiate : String → List Arg → List (String × Arg) → Option Handler)
    (watch_path : String) : SchedState → Trick → SchedState × Option PyError
  | st, [] => (st, none)
  | st, (trick_name, trick_value) :: rest =>
    match schedule_trick_item load_class instantiate watch_path st trick_name trick_value with
    | (st1, none) => schedule_trick_items load_class instantiate watch_path st1 rest
    | (st1, some e) => (st1, some e)

/-- `schedule_tricks(observer, tricks, watch_path)` (lines 101-116): the outer
loop over the trick list; an uncaught exception from one trick aborts the
remaining tricks. -/
def schedule_tricks (load_class : String → Option String)
    (instantiate : String → List Arg → List (String × Arg) → Option Handler)
    (tricks : List Trick) (watch_path : String) (st : SchedState) :
    SchedState × Option PyError :=
  match tricks with
  | [] => (st, none)
  | trick :: rest =>
    match schedule_trick_items load_class instantiate watch_path st trick with
    | (st1, none) => schedule_tricks load_class instantiate rest watch_path st1
    | (st1, some e) => (st1, some e)

/-- Python `str.split(sep)` on the character list of a string: splits at every
occurrence of the separator, so the number of groups is the number of
separators plus one, and splitting the empty string yields one empty group.
Both separators the script uses, the pattern delimiter and `os.path.sep`, are
single characters. -/
def split_chars (sep : Char) : List Char → List (List Char)
  | [] => [[]]
  | c :: rest =>
    if c = sep then [] :: split_chars sep rest
    else
      match split_chars sep rest with
      | [] => [[c]]
      | g :: gs => (c :: g) :: gs

/-- Python `str.split(sep)` for a single-character separator. -/
def py_split (s : String) (sep : Char) : List String :=
  (split_chars sep s.data).map String.mk

/-- `parse_patterns(patterns_spec, ignore_patterns_spec)` (lines 77-84). -/
def parse_patterns (patterns_spec : String) (ignore_patterns_spec : String) :
    List String × List String :=
  let separator := ';'
  let patterns := py_split patterns_spec separator
  let ignore_patterns := py_split ignore_patterns_spec separator
  let ignore_patterns := if ignore_patterns = [""] then [] else ignore_patterns
  (patterns, ignore_patterns)

/-- `path_split(path_spec, separator)` (lines 53-56); the separator defaults to
the platform `os.path.sep` and is kept explicit here. -/
def path_split (path_spec : String) (separator : Char) : List String :=
  py_split path_spec separator

/-- Python `list.insert(index, x)` for the non-negative indices the script
uses. -/
def list_insert (l : List String) (index : Nat) (x : String) : List String :=
  l.take index ++ x :: l.drop index

/-- `add_to_sys_path(paths, index=0)` (lines 59-62): inserts the paths in
reverse order at the given index of the (explicitly passed) `sys.path` list. -/
def add_to_sys_path (paths : List String) (sys_path : List String) (index : Nat) :
    List String :=
  paths.reverse.foldl (fun sp p => list_insert sp index p) sys_path

/-- One decoded configuration document as `tricks_from` consumes it (lines
131-138): the optional `tricks` list and the optional `python-path` list. -/
structure Config where
  tricks : Option (List Trick)
  pythonPath : Option (List String)
  deriving DecidableEq, Repr

/-- The environment of `tricks_from`: the configuration files that exist,
already decoded (`os.path.exists` on line 128 succeeds exactly on the listed
names, and `load_config` on line 131 returns the associated document). -/
structure Env where
  files : List (String × Config)
  deriving DecidableEq, Repr

/-- The state threaded through the startup phase of `tricks_from`: the
`sys.path` list, the `observers` list (line 124), the log, and the
fresh-identifier counter. -/
structure TFState where
  sysPath : List String
  observers : List Observer
  log : List String
  nextId : Nat
  deriving DecidableEq, Repr

/-- `CONFIG_KEY_TRICKS` (line 50). -/
def CONFIG_KEY_TRICKS : String := "tricks"

/-- `CONFIG_KEY_PYTHON_PATH` (line 51). -/
def CONFIG_KEY_PYTHON_PATH : String := "python-path"

/-- The names bound in the body of `tricks_from` (lines 122-153): its parameter
and every name assigned in the function. -/
def tricks_from_local_names : List String :=
  ["args", "observers", "tricks_file", "observer", "config", "tricks",
   "dir_path", "o"]

/-- The module-level names of watchmedo.py: imports (lines 26-40) and
module-level assignments and definitions (lines 43-277). -/
def watchmedo_module_names : List String :=
  ["os", "sys", "yaml", "time", "uuid", "logging", "StringIO",
   "arg", "alias", "ArghParser", "Observer", "VERSION_STRING",
   "read_text_file", "load_class", "absolute_path", "get_parent_dir_path",
   "CURRENT_DIR_PATH", "DEFAULT_TRICKS_FILE_NAME", "DEFAULT_TRICKS_FILE_PATH",
   "CONFIG_KEY_TRICKS", "CONFIG_KEY_PYTHON_PATH",
   "path_split", "add_to_sys_path", "load_config", "check_trick_has_key",
   "parse_patterns", "observe_with", "schedule_tricks", "tricks_from",
   "tricks_generate_yaml", "log", "shell_command", "epilog", "parser", "main"]

/-- The Python builtins relevant to the expressions of `tricks_from`. -/
def python_builtin_names : List String :=
  ["KeyError", "IOError", "NameError", "ImportError", "True", "False", "None",
   "open", "list", "str"]

/-- Whether a name lookup succeeds inside the body of `tricks_from`: local,
module-global or builtin. -/
def name_resolves_in_tricks_from (n : String) : Bool :=
  tricks_from_local_names.contains n || watchmedo_module_names.contains n ||
    python_builtin_names.contains n

/-- The free names of the expression of the raise statement on line 134,
`KeyError("No `%s' key specified in %s." % (CONFIG_KEY_TRICKS, input_file))`,
in left-to-right evaluation order. -/
def raise_missing_tricks_free_names : List String :=
  ["KeyError", "CONFIG_KEY_TRICKS", "input_file"]

/-- Evaluating the raise statement on line 134: Python resolves the free names
of the expression; the first name that does not resolve raises `NameError`
instead, and only if all resolve is the intended `KeyError` raised. -/
def eval_raise_missing_tricks : PyError :=
  match raise_missing_tricks_free_names.find?
      (fun n => !(name_resolves_in_tricks_from n)) with
  | some n => PyError.nameError n
  | none => PyError.keyError ("No " ++ CONFIG_KEY_TRICKS ++ " key specified.")

/-- Packaging of the per-file result of `tricks_from` (lines 141-143): on a
scheduling error, the exception propagates with the log and counter effects
already performed and the fresh observer discarded; on success, the observer is
started and appended to `observers`. -/
def finish_schedule (st : TFState) (sysPath : List String)
    (r : SchedState × Option PyError) : TFState × Option PyError :=
  match r with
  | (sst, some e) => (⟨sysPath, st.observers, sst.log, sst.nextId⟩, some e)
  | (sst, none) =>
    (⟨sysPath, st.observers ++ [sst.obs.start], sst.log, sst.nextId⟩, none)

/-- The body of the `for tricks_file in args.files` loop of `tricks_from`
(lines 125-143): construct an observer, raise `IOError` when the file does not
exist (lines 128-129), load the configuration (line 131), evaluate the raise
statement when the `tricks` key is absent (lines 133-134), prepend the
documents `python-path` entry to `sys.path` (lines 137-138), and schedule the
tricks against the parent directory (lines 140-141) before starting the
observer (line 142). The external `load_class` consults the current `sys.path`
list, so the resolver parameter takes it as its first argument; `parent_dir` is
the external `get_parent_dir_path`. -/
def process_tricks_file (env : Env)
    (load_class : List String → String → Option String)
    (instantiate : String → List Arg → List (String × Arg) → Option Handler)
    (parent_dir : String → String)
    (st : TFState) (tricks_file : String) : TFState × Option PyError :=
  match env.files.lookup tricks_file with
  | none => (st, some (PyError.ioError tricks_file))
  | some config =>
    match config.tricks with
    | none => (st, some eval_raise_missing_tricks)
    | some tricks =>
      let sysPath :=
        match config.pythonPath with
        | some ps => add_to_sys_path ps st.sysPath 0
        | none => st.sysPath
      let dir_path := parent_dir tricks_file
      finish_schedule st sysPath
        (schedule_tricks (load_class sysPath) instantiate tricks dir_path
          ⟨st.log, st.nextId, Observer.new⟩)

/-- The `for tricks_file in args.files` loop (lines 125-143): an uncaught
exception from one file aborts the remaining files. -/
def tricks_from_loop (env : Env)
    (load_class : List String → String → Option String)
    (instantiate : String → List Arg → List (String × Arg) → Option Handler)
    (parent_dir : String → String) :
    TFState → List String → TFState × Option PyError
  | st, [] => (st, none)
  | st, f :: fs =>
    match process_tricks_file env load_class instantiate parent_dir st f with
    | (st1, none) => tricks_from_loop env load_class instantiate parent_dir st1 fs
    | (st1, some e) => (st1, some e)

/-- The startup phase of `tricks_from(args)` (lines 122-143): prepend the
`--python-path` argument split on the platform separator (line 123), then run
the per-file loop over `args.files`. -/
def tricks_from (env : Env)
    (load_class : List String → String → Option String)
    (instantiate : String → List Arg → List (String × Arg) → Option Handler)
    (parent_dir : String → String)
    (python_path : String) (path_sep : Char) (sys_path0 : List String)
    (files : List String) : TFState × Option PyError :=
  tricks_from_loop env load_class instantiate parent_dir
    ⟨add_to_sys_path (path_split python_path path_sep) sys_path0 0, [], [], 0⟩
    files

/-- The outcome of the interrupt-driven shutdown of `tricks_from` (lines
145-153): the final observers, the trace of the observer method calls
performed, in execution order, and the first uncaught exception if any. -/
structure ShutdownResult where
  observers : List Observer
  trace : List (Nat × ShutdownOp)
  error : Option PyError
  deriving DecidableEq, Repr

/-- The first shutdown loop, `for o in observers: o.unschedule(); o.stop()`
(lines 149-151). The external observer calls may raise; `fail i op` says
whether the call `op` on the observer at position `i` raises. There is no
try-except around the body, so the first raising call aborts the loop with the
remaining observers untouched. -/
def unschedule_stop_loop (fail : Nat → ShutdownOp → Bool) :
    Nat → List Observer → ShutdownResult
  | _, [] => ⟨[], [], none⟩
  | i, o :: rest =>
    if fail i ShutdownOp.unschedule then
      ⟨o :: rest, [(i, ShutdownOp.unschedule)],
        some (PyError.shutdownError i ShutdownOp.unschedule)⟩
    else
      let o1 := o.unschedule_all
      if fail i ShutdownOp.stop then
        ⟨o1 :: rest, [(i, ShutdownOp.unschedule), (i, ShutdownOp.stop)],
          some (PyError.shutdownError i ShutdownOp.stop)⟩
      else
        let o2 := o1.stop
        let r := unschedule_stop_loop fail (i + 1) rest
        ⟨o2 :: r.observers,
          (i, ShutdownOp.unschedule) :: (i, ShutdownOp.stop) :: r.trace, r.error⟩

/-- The second shutdown loop, `for o in observers: o.join()` (lines 152-153),
with the same failure model. -/
def join_loop (fail : Nat → ShutdownOp → Bool) :
    Nat → List Observer → ShutdownResult
  | _, [] => ⟨[], [], none⟩
  | i, o :: rest =>
    if fail i ShutdownOp.join then
      ⟨o :: rest, [(i, ShutdownOp.join)],
        some (PyError.shutdownError i ShutdownOp.join)⟩
    else
      let o1 := o.join
      let r := join_loop fail (i + 1) rest
      ⟨o1 :: r.observers, (i, ShutdownOp.join) :: r.trace, r.error⟩

/-- The interrupt-driven shutdown of `tricks_from` (lines 148-153): the
unschedule-stop loop runs inside the `except KeyboardInterrupt` handler; an
exception escaping it propagates out of the function, so the join loop (which
sits after the try statement) runs only when the first loop finished without
raising. -/
def interrupt_shutdown (fail : Nat → ShutdownOp → Bool)
    (observers : List Observer) : ShutdownResult :=
  let r1 := unschedule_stop_loop fail 0 observers
  match r1.error with
  | some e => ⟨r1.observers, r1.trace, some e⟩
  | none =>
    let r2 := join_loop fail 0 r1.observers
    ⟨r2.observers, r1.trace ++ r2.trace, r2.error⟩

/-- The expected call trace of the first shutdown loop when no call raises,
starting at observer index `i` with `n` observers: unschedule then stop for
each observer in order. -/
def unschedule_stop_trace : Nat → Nat → List (Nat × ShutdownOp)
  | _, 0 => []
  | i, n + 1 =>
    (i, ShutdownOp.unschedule) :: (i, ShutdownOp.stop) ::
      unschedule_stop_trace (i + 1) n

/-- The expected call trace of the second shutdown loop when no call raises. -/
def join_trace : Nat → Nat → List (Nat × ShutdownOp)
  | _, 0 => []
  | i, n + 1 => (i, ShutdownOp.join) :: join_trace (i + 1) n

/-- The expected full shutdown trace when no call raises: every unschedule and
stop call precedes every join call. -/
def full_shutdown_trace (n : Nat) : List (Nat × ShutdownOp) :=
  unschedule_stop_trace 0 n ++ join_trace 0 n

/-- The number of `(trick_name, trick_value)` items the two nested loops of
`schedule_tricks` iterate over; for the decoded one-key mappings of a
configuration it equals the number of tricks. -/
def num_trick_items (tricks : List Trick) : Nat := (tricks.map List.length).sum

/-- Concrete sample resolver: only the identifier `good` resolves. -/
def resolve_good : String → Option String :=
  fun n => if n = "good" then some "GoodTrick" else none

/-- Concrete sample resolver for the `tricks_from` level: nothing resolves,
whatever the search path. -/
def resolve_none : List String → String → Option String := fun _ _ => none

/-- Concrete sample resolver: every identifier resolves. -/
def resolve_const : String → Option String := fun _ => some "TrickClass"

/-- Concrete sample instantiation: handler construction always succeeds and
records the class and arguments. -/
def inst_ok : String → List Arg → List (String × Arg) → Option Handler :=
  fun cls a k => some ⟨cls, a, k⟩

/-- Concrete sample trick list: two one-key entries, the first unresolvable by
`resolve_good`, the second resolvable. -/
def tricks_bad_good : List Trick :=
  [[("bad.Trick", ⟨some [], some []⟩)], [("good", ⟨some [], some []⟩)]]

/-- Concrete sample trick list: two valid one-key entries; the second lacks
both the `args` and the `kwargs` key. -/
def tricks_two : List Trick :=
  [[("pkg.A", ⟨some ["x"], some []⟩)], [("pkg.B", ⟨none, none⟩)]]

/-- Concrete sample environment: one existing configuration file with an empty
trick list. -/
def env_one_good : Env := ⟨[("good.yaml", ⟨some [], none⟩)]⟩

/-- Concrete sample environment: one configuration file lacking the `tricks`
key. -/
def env_no_tricks_key : Env := ⟨[("conf.yaml", ⟨none, none⟩)]⟩

/-- Concrete sample environment: one configuration file with one unresolvable
trick that also lacks the `args` and `kwargs` keys. -/
def env_bad_trick : Env :=
  ⟨[("bad.yaml", ⟨some [[("nope", ⟨none, none⟩)]], none⟩)]⟩

/-- Concrete sample environment: one configuration file with `python-path`
entries and an empty trick list. -/
def env_with_pypath : Env := ⟨[("t.yaml", ⟨some [], some ["p1", "p2"]⟩)]⟩

/-- Concrete sample parent-directory function. -/
def parent_dir_d : String → String := fun _ => "/d"

/-- Concrete sample failure oracle: only the unschedule call on the observer
at position 0 raises. -/
def fail_unschedule0 : Nat → ShutdownOp → Bool :=
  fun i op => i == 0 && op == ShutdownOp.unschedule

/-- Concrete sample running observer with one session. -/
def obs_a : Observer := ⟨[⟨0, ⟨"H", [], []⟩, ["/a"], true⟩], true, false, false⟩

/-- Concrete sample running observer with one session. -/
def obs_b : Observer := ⟨[⟨1, ⟨"H", [], []⟩, ["/b"], true⟩], true, false, false⟩

/-- Helper: inserting at index 0 in reverse order puts the inserted list in
front in its original order. -/
theorem add_to_sys_path_zero (paths sys_path : List String) :
    add_to_sys_path paths sys_path 0 = paths ++ sys_path := by
  induction paths generalizing sys_path with
  | nil => rfl
  | cons a ps ih =>
    show ((a :: ps).reverse).foldl (fun sp p => list_insert sp 0 p) sys_path = _
    rw [List.reverse_cons, List.foldl_append]
    have h := ih sys_path
    simp only [add_to_sys_path] at h
    rw [h]
    rfl

/-- Claim C4 (confirmed): `parse_patterns` splits both the include-pattern
spec and the ignore-pattern spec on the fixed delimiter, and an empty
ignore-pattern string yields the empty ignore list, never a list containing
the empty string. -/
theorem c4_theorem (patterns_spec ignore_patterns_spec : String) :
    (parse_patterns patterns_spec ignore_patterns_spec).1 =
      py_split patterns_spec ';' ∧
    (parse_patterns patterns_spec ignore_patterns_spec).2 =
      (if py_split ignore_patterns_spec ';' = [""] then []
       else py_split ignore_patterns_spec ';') ∧
    (parse_patterns patterns_spec "").2 = [] := by
  refine ⟨rfl, rfl, ?_⟩
  show (if py_split "" ';' = [""] then [] else py_split "" ';') = ([] : List String)
  decide

/-- Claim C10 (confirmed): `parse_patterns` normalizes only the ignore side;
an empty include-pattern string yields the one-element include list containing
the empty string, which is not the empty list, while an empty ignore-pattern
string yields the empty list. -/
theorem c10_theorem (ignore_patterns_spec : String) :
    (parse_patterns "" ignore_patterns_spec).1 = [""] ∧
    (parse_patterns "" "").2 = [] ∧
    ([""] : List String) ≠ [] := by
  refine ⟨?_, ?_, by decide⟩
  · show py_split "" ';' = [""]
    decide
  · show (if py_split "" ';' = [""] then [] else py_split "" ';') = ([] : List String)
    decide

/-- Helper: a successful iteration of the inner scheduling loop appends exactly
one session carrying the current counter value, the given watch path and the
recursive flag, and increments the counter. -/
theorem schedule_trick_item_ok (load_class : String → Option String)
    (instantiate : String → List Arg → List (String × Arg) → Option Handler)
    (watch_path : String) (st : SchedState)
    (trick_name : String) (trick_value : TrickValue) (st1 : SchedState)
    (h : schedule_trick_item load_class instantiate watch_path st trick_name trick_value
      = (st1, none)) :
    ∃ handler, st1.obs.sessions =
        st.obs.sessions ++ [⟨st.nextId, handler, [watch_path], true⟩] ∧
      st1.nextId = st.nextId + 1 := by
  unfold schedule_trick_item at h
  split at h
  · injection h with h1 h2; cases h2
  · dsimp only at h
    split at h
    · injection h with h1 h2; cases h2
    · rename_i handler heq
      injection h with h1 h2
      subst h1
      refine ⟨handler, ?_, rfl⟩
      simp [Observer.schedule]

/-- Helper: a successful run of the inner scheduling loop over the items of
one trick appends one session per item, with consecutive fresh identifiers. -/
theorem schedule_trick_items_ok (load_class : String → Option String)
    (instantiate : String → List Arg → List (String × Arg) → Option Handler)
    (watch_path : String) : ∀ (items : Trick) (st st1 : SchedState),
    schedule_trick_items load_class instantiate watch_path st items = (st1, none) →
    ∃ news : List WatchSession,
      st1.obs.sessions = st.obs.sessions ++ news ∧
      news.map (fun s => s.identifier) = List.range' st.nextId items.length ∧
      st1.nextId = st.nextId + items.length ∧
      ∀ s ∈ news, s.paths = [watch_path] ∧ s.recursive = true := by
  intro items
  induction items with
  | nil =>
    intro st st1 h
    injection h with h1 _
    exact ⟨[], by rw [← h1]; simp, by simp, by rw [← h1]; simp, by simp⟩
  | cons p rest ih =>
    intro st st1 h
    rcases p with ⟨n, v⟩
    rcases hi : schedule_trick_item load_class instantiate watch_path st n v with ⟨stm, oe⟩
    rw [schedule_trick_items, hi] at h
    cases oe with
    | some e => simp at h
    | none =>
      obtain ⟨handler, hs, hn⟩ := schedule_trick_item_ok _ _ _ _ _ _ _ hi
      obtain ⟨news, h1, h2, h3, h4⟩ := ih stm st1 h
      refine ⟨⟨st.nextId, handler, [watch_path], true⟩ :: news, ?_, ?_, ?_, ?_⟩
      · rw [h1, hs]; simp
      · simp only [List.map_cons, h2, hn, List.length_cons, List.range'_succ]
      · rw [h3, hn]; simp; omega
      · intro s hs'
        rcases List.mem_cons.mp hs' with rfl | hs'
        · exact ⟨rfl, rfl⟩
        · exact h4 s hs'

/-- Helper: a successful run of `schedule_tricks` appends one session per
item of the trick list, with consecutive fresh identifiers starting at the
incoming counter value. -/
theorem schedule_tricks_ok (load_class : String → Option String)
    (instantiate : String → List Arg → List (String × Arg) → Option Handler)
    (watch_path : String) : ∀ (tricks : List Trick) (st st1 : SchedState),
    schedule_tricks load_class instantiate tricks watch_path st = (st1, none) →
    ∃ news : List WatchSession,
      st1.obs.sessions = st.obs.sessions ++ news ∧
      news.map (fun s => s.identifier) = List.range' st.nextId (num_trick_items tricks) ∧
      st1.nextId = st.nextId + num_trick_items tricks ∧
      ∀ s ∈ news, s.paths = [watch_path] ∧ s.recursive = true := by
  intro tricks
  induction tricks with
  | nil =>
    intro st st1 h
    injection h with h1 _
    exact ⟨[], by rw [← h1]; simp, by simp [num_trick_items],
      by rw [← h1]; simp [num_trick_items], by simp⟩
  | cons t rest ih =>
    intro st st1 h
    rcases hi : schedule_trick_items load_class instantiate watch_path st t with ⟨stm, oe⟩
    rw [schedule_tricks, hi] at h
    cases oe with
    | some e => simp at h
    | none =>
      obtain ⟨news1, a1, a2, a3, a4⟩ := schedule_trick_items_ok _ _ _ _ _ _ hi
      obtain ⟨news2, b1, b2, b3, b4⟩ := ih stm st1 h
      refine ⟨news1 ++ news2, ?_, ?_, ?_, ?_⟩
      · rw [b1, a1, List.append_assoc]
      · rw [List.map_append, a2, b2, a3]
        have hnum : num_trick_items (t :: rest) = t.length + num_trick_items rest := by
          simp [num_trick_items]
        rw [hnum, Nat.add_comm t.length (num_trick_items rest)]
        exact List.range'_append_1 st.nextId t.length (num_trick_items rest)
      · rw [b3, a3]
        have hnum : num_trick_items (t :: rest) = t.length + num_trick_items rest := by
          simp [num_trick_items]
        omega
      · intro s hs
        rcases List.mem_append.mp hs with hs | hs
        · exact a4 s hs
        · exact b4 s hs

/-- Helper: for one-key trick mappings the item count equals the number of
tricks. -/
theorem num_trick_items_of_single : ∀ (tricks : List Trick),
    (∀ t ∈ tricks, t.length = 1) → num_trick_items tricks = tricks.length := by
  intro tricks h
  induction tricks with
  | nil => rfl
  | cons t rest ih =>
    have h1 : t.length = 1 := h t (List.mem_cons_self t rest)
    have h2 : num_trick_items rest = rest.length :=
      ih (fun u hu => h u (List.mem_cons_of_mem t hu))
    simp [num_trick_items] at h2 ⊢
    omega

/-- Claim C5 (confirmed): when `schedule_tricks` processes a list of N one-key
trick specifications without error, the tricks are handled in the listed order
and each yields exactly one registration: the session count grows by exactly N,
the earlier sessions are untouched, the new sessions carry consecutive freshly
generated identifiers, which are therefore pairwise distinct, and each new
session has the one-element root path list containing the base directory and
the recursive flag set. -/
theorem c5_theorem (load_class : String → Option String)
    (instantiate : String → List Arg → List (String × Arg) → Option Handler)
    (tricks : List Trick) (watch_path : String) (st : SchedState)
    (hone : ∀ t ∈ tricks, t.length = 1)
    (hok : (schedule_tricks load_class instantiate tricks watch_path st).2 = none) :
    (schedule_tricks load_class instantiate tricks watch_path st).1.obs.sessions.length
        = st.obs.sessions.length + tricks.length ∧
    (schedule_tricks load_class instantiate tricks watch_path st).1.obs.sessions.take
        st.obs.sessions.length = st.obs.sessions ∧
    (((schedule_tricks load_class instantiate tricks watch_path st).1.obs.sessions.drop
        st.obs.sessions.length).map (fun s => s.identifier))
        = List.range' st.nextId tricks.length ∧
    (((schedule_tricks load_class instantiate tricks watch_path st).1.obs.sessions.drop
        st.obs.sessions.length).map (fun s => s.identifier)).Nodup ∧
    ((schedule_tricks load_class instantiate tricks watch_path st).1.obs.sessions.drop
        st.obs.sessions.length).all
        (fun s => s.paths == [watch_path] && s.recursive) = true := by
  have hres : schedule_tricks load_class instantiate tricks watch_path st
      = ((schedule_tricks load_class instantiate tricks watch_path st).1, none) :=
    Prod.ext rfl hok
  obtain ⟨news, h1, h2, h3, h4⟩ := schedule_tricks_ok _ _ _ _ _ _ hres
  rw [num_trick_items_of_single tricks hone] at h2
  have hlen : news.length = tricks.length := by
    have hc := congrArg List.length h2
    simpa using hc
  constructor
  · simp [h1, hlen]
  constructor
  · rw [h1, List.take_left]
  have hdrop : (schedule_tricks load_class instantiate tricks watch_path st).1.obs.sessions.drop
      st.obs.sessions.length = news := by
    rw [h1, List.drop_left]
  constructor
  · rw [hdrop, h2]
  constructor
  · rw [hdrop, h2]; exact List.nodup_range' st.nextId tricks.length
  · rw [hdrop]
    simp only [List.all_eq_true]
    intro s hs
    obtain ⟨hp, hr⟩ := h4 s hs
    simp [hp, hr]

/-- Witness for claim C5 at a concrete input: two valid one-key tricks
starting from counter value 5 yield two sessions with identifiers 5 and 6. -/
theorem c5_witness :
    (schedule_tricks resolve_const inst_ok tricks_two "/w"
        ⟨[], 5, Observer.new⟩).1.obs.sessions.length = 0 + 2 ∧
    (schedule_tricks resolve_const inst_ok tricks_two "/w"
        ⟨[], 5, Observer.new⟩).1.obs.sessions.take 0 = [] ∧
    ((schedule_tricks resolve_const inst_ok tricks_two "/w"
        ⟨[], 5, Observer.new⟩).1.obs.sessions.drop 0).map
        (fun s => s.identifier) = List.range' 5 2 ∧
    (((schedule_tricks resolve_const inst_ok tricks_two "/w"
        ⟨[], 5, Observer.new⟩).1.obs.sessions.drop 0).map
        (fun s => s.identifier)).Nodup ∧
    ((schedule_tricks resolve_const inst_ok tricks_two "/w"
        ⟨[], 5, Observer.new⟩).1.obs.sessions.drop 0).all
        (fun s => s.paths == ["/w"] && s.recursive) = true :=
  c5_theorem resolve_const inst_ok tricks_two "/w" ⟨[], 5, Observer.new⟩
    (by decide) (by decide)

/-- Claim C6 (confirmed): for a trick value mapping lacking the `args` key or
the `kwargs` key, `schedule_tricks` logs one warning per missing key,
substitutes the empty positional sequence and the empty mapping, and still
instantiates and registers the handler; the log strictly grows. -/
theorem c6_theorem (load_class : String → Option String)
    (instantiate : String → List Arg → List (String × Arg) → Option Handler)
    (watch_path : String) (st : SchedState)
    (trick_name : String) (trick_value : TrickValue) (cls : String) (handler : Handler)
    (hmiss : trick_value.args = none ∨ trick_value.kwargs = none)
    (hc : load_class trick_name = some cls)
    (hh : instantiate cls (trick_value.args.getD []) (trick_value.kwargs.getD [])
      = some handler) :
    schedule_trick_item load_class instantiate watch_path st trick_name trick_value =
      (⟨st.log
          ++ (if trick_value.kwargs.isSome then []
              else [missing_key_warning "kwargs" trick_name])
          ++ (if trick_value.args.isSome then []
              else [missing_key_warning "args" trick_name]),
        st.nextId + 1,
        st.obs.schedule st.nextId handler [watch_path] true⟩, none) ∧
    st.log.length <
      (schedule_trick_item load_class instantiate watch_path st trick_name
        trick_value).1.log.length := by
  have heq : schedule_trick_item load_class instantiate watch_path st trick_name trick_value =
      (⟨st.log
          ++ (if trick_value.kwargs.isSome then []
              else [missing_key_warning "kwargs" trick_name])
          ++ (if trick_value.args.isSome then []
              else [missing_key_warning "args" trick_name]),
        st.nextId + 1,
        st.obs.schedule st.nextId handler [watch_path] true⟩, none) := by
    cases ha : trick_value.args <;> cases hk : trick_value.kwargs <;>
      simp_all [schedule_trick_item, check_trick_has_key, TrickValue.hasKey, hc, hh]
  refine ⟨heq, ?_⟩
  rw [heq]
  rcases hmiss with hm | hm <;> rw [hm] <;> cases trick_value.args <;>
    cases trick_value.kwargs <;> simp

/-- Witness for claim C6 at a concrete input: a trick lacking both keys logs
two warnings yet is registered under the next fresh identifier. -/
theorem c6_witness :
    schedule_trick_item resolve_const inst_ok "/w" ⟨["l0"], 7, Observer.new⟩
        "pkg.B" ⟨none, none⟩
      = (⟨["l0"]
            ++ [missing_key_warning "kwargs" "pkg.B"]
            ++ [missing_key_warning "args" "pkg.B"],
          8, Observer.new.schedule 7 ⟨"TrickClass", [], []⟩ ["/w"] true⟩, none) ∧
    (1 : Nat) <
      (schedule_trick_item resolve_const inst_ok "/w" ⟨["l0"], 7, Observer.new⟩
        "pkg.B" ⟨none, none⟩).1.log.length :=
  c6_theorem resolve_const inst_ok "/w" ⟨["l0"], 7, Observer.new⟩ "pkg.B"
    ⟨none, none⟩ "TrickClass" ⟨"TrickClass", [], []⟩ (Or.inl rfl) rfl rfl

/-- Claim C1 is refuted at a concrete input: a two-trick list whose first
entry is unresolvable yields zero registered sessions rather than N minus one
equal to one, and the resolution error propagates out of `schedule_tricks`
instead of the trick being skipped with a logged warning. -/
theorem c1_counterexample :
    (schedule_tricks resolve_good inst_ok tricks_bad_good "/w"
      ⟨[], 0, Observer.new⟩).1.obs.sessions.length = 0 ∧
    (schedule_tricks resolve_good inst_ok tricks_bad_good "/w"
      ⟨[], 0, Observer.new⟩).2 = some (PyError.resolutionError "bad.Trick") ∧
    tricks_bad_good.length - 1 = 1 := by decide

/-- Claim C1 (amended): failure to resolve or instantiate one trick aborts
`schedule_tricks` at that trick: the resulting state and error are the same
whether or not further tricks follow, so the subsequent tricks are never
scheduled and only the sessions registered before the failure remain. -/
theorem c1_amended_theorem (load_class : String → Option String)
    (instantiate : String → List Arg → List (String × Arg) → Option Handler)
    (watch_path : String) (st : SchedState) (trick : Trick) (rest : List Trick)
    (st' : SchedState) (e : PyError)
    (h : schedule_tricks load_class instantiate [trick] watch_path st = (st', some e)) :
    schedule_tricks load_class instantiate (trick :: rest) watch_path st = (st', some e) := by
  rcases hi : schedule_trick_items load_class instantiate watch_path st trick with ⟨st1, oe⟩
  rw [schedule_tricks, hi] at h ⊢
  cases oe with
  | none => simp [schedule_tricks] at h
  | some e0 => exact h

/-- Witness for the amended claim C1 at a concrete input: the unresolvable
first trick aborts the run even though a resolvable trick follows. -/
theorem c1_witness :
    schedule_tricks resolve_good inst_ok
        ([("bad.Trick", ⟨some [], some []⟩)] :: [[("good", ⟨some [], some []⟩)]])
        "/w" ⟨[], 0, Observer.new⟩
      = (⟨[], 0, Observer.new⟩, some (PyError.resolutionError "bad.Trick")) :=
  c1_amended_theorem resolve_good inst_ok "/w" ⟨[], 0, Observer.new⟩
    [("bad.Trick", ⟨some [], some []⟩)] [[("good", ⟨some [], some []⟩)]]
    ⟨[], 0, Observer.new⟩ (PyError.resolutionError "bad.Trick") (by decide)

/-- Helper: when the unschedule-stop loop finishes without error, it has
unscheduled and stopped every observer, in order, with the interleaved trace. -/
theorem unschedule_stop_loop_sound (fail : Nat → ShutdownOp → Bool) :
    ∀ (i : Nat) (obs : List Observer),
    (unschedule_stop_loop fail i obs).error = none →
    unschedule_stop_loop fail i obs =
      ⟨obs.map (fun o => (o.unschedule_all).stop),
        unschedule_stop_trace i obs.length, none⟩ := by
  intro i obs
  induction obs generalizing i with
  | nil => intro _; rfl
  | cons o rest ih =>
    intro h
    rw [unschedule_stop_loop] at h ⊢
    by_cases h1 : fail i ShutdownOp.unschedule
    · simp [h1] at h
    · by_cases h2 : fail i ShutdownOp.stop
      · simp [h1, h2] at h
      · simp only [h1, h2, if_false, Bool.false_eq_true] at h ⊢
        have he : (unschedule_stop_loop fail (i + 1) rest).error = none := h
        rw [ih (i + 1) he]
        simp [unschedule_stop_trace]

/-- Helper: when the join loop finishes without error, it has joined every
observer in order. -/
theorem join_loop_sound (fail : Nat → ShutdownOp → Bool) :
    ∀ (i : Nat) (obs : List Observer),
    (join_loop fail i obs).error = none →
    join_loop fail i obs =
      ⟨obs.map Observer.join, join_trace i obs.length, none⟩ := by
  intro i obs
  induction obs generalizing i with
  | nil => intro _; rfl
  | cons o rest ih =>
    intro h
    rw [join_loop] at h ⊢
    by_cases h1 : fail i ShutdownOp.join
    · simp [h1] at h
    · simp only [h1, if_false, Bool.false_eq_true] at h ⊢
      have he : (join_loop fail (i + 1) rest).error = none := h
      rw [ih (i + 1) he]
      simp [join_trace]

/-- Helper: the unschedule-stop loop only ever performs unschedule and stop
calls, never join calls. -/
theorem unschedule_stop_loop_trace_ops (fail : Nat → ShutdownOp → Bool) :
    ∀ (i : Nat) (obs : List Observer),
    ∀ e ∈ (unschedule_stop_loop fail i obs).trace,
      e.2 = ShutdownOp.unschedule ∨ e.2 = ShutdownOp.stop := by
  intro i obs
  induction obs generalizing i with
  | nil => intro e he; simp [unschedule_stop_loop] at he
  | cons o rest ih =>
    intro e he
    rw [unschedule_stop_loop] at he
    by_cases h1 : fail i ShutdownOp.unschedule
    · simp [h1] at he
      rw [he]
      exact Or.inl rfl
    · by_cases h2 : fail i ShutdownOp.stop
      · simp [h1, h2] at he
        rcases he with he | he <;> rw [he]
        · exact Or.inl rfl
        · exact Or.inr rfl
      · simp [h1, h2] at he
        rcases he with he | he | he
        · rw [he]; exact Or.inl rfl
        · rw [he]; exact Or.inr rfl
        · exact ih (i + 1) e he

/-- Helper: with no failing call the unschedule-stop loop reports no error. -/
theorem unschedule_stop_loop_nofail_error :
    ∀ (i : Nat) (obs : List Observer),
    (unschedule_stop_loop (fun _ _ => false) i obs).error = none := by
  intro i obs
  induction obs generalizing i with
  | nil => rfl
  | cons o rest ih => rw [unschedule_stop_loop]; simpa using ih (i + 1)

/-- Helper: with no failing call the join loop reports no error. -/
theorem join_loop_nofail_error :
    ∀ (i : Nat) (obs : List Observer),
    (join_loop (fun _ _ => false) i obs).error = none := by
  intro i obs
  induction obs generalizing i with
  | nil => rfl
  | cons o rest ih => rw [join_loop]; simpa using ih (i + 1)

/-- Helper: with no failing call the whole shutdown unschedules, stops and
joins every observer, with the full trace. -/
theorem interrupt_shutdown_nofail (observers : List Observer) :
    interrupt_shutdown (fun _ _ => false) observers =
      ⟨observers.map (fun o => ((o.unschedule_all).stop).join),
        full_shutdown_trace observers.length, none⟩ := by
  have h1 := unschedule_stop_loop_nofail_error 0 observers
  have h2 := join_loop_nofail_error 0
    (observers.map (fun o => (o.unschedule_all).stop))
  rw [interrupt_shutdown, unschedule_stop_loop_sound _ 0 observers h1]
  simp only
  rw [join_loop_sound _ 0 _ h2]
  simp [full_shutdown_trace, List.map_map, Function.comp]

/-- Claim C3 is refuted at a concrete input: when the unschedule call on the
first of two observers raises, the exception propagates instead of being
collected, and the second observer is left with its session registered and not
stopped, contradicting that one failing handle must not prevent the remaining
handles from being unscheduled and stopped. -/
theorem c3_counterexample :
    (interrupt_shutdown fail_unschedule0 [obs_a, obs_b]).error
      = some (PyError.shutdownError 0 ShutdownOp.unschedule) ∧
    (interrupt_shutdown fail_unschedule0 [obs_a, obs_b]).observers = [obs_a, obs_b] ∧
    obs_b.stopped = false ∧ obs_b.sessions ≠ [] := by decide

/-- Claim C3 (amended): on interruption, unschedule then stop are called for
every handle in start order and join is called on every handle only after all
stop calls — but only when every call succeeds; an individual failure in the
unschedule-stop loop is raised, not collected: the shutdown ends at the
failing call and no join is performed on any handle. -/
theorem c3_amended_theorem (fail : Nat → ShutdownOp → Bool) (observers : List Observer) :
    ((interrupt_shutdown fail observers).error = none →
      (interrupt_shutdown fail observers).observers =
        observers.map (fun o => ((o.unschedule_all).stop).join) ∧
      (interrupt_shutdown fail observers).trace =
        full_shutdown_trace observers.length) ∧
    ((unschedule_stop_loop fail 0 observers).error.isSome →
      (interrupt_shutdown fail observers).trace =
        (unschedule_stop_loop fail 0 observers).trace ∧
      ∀ e ∈ (interrupt_shutdown fail observers).trace, e.2 ≠ ShutdownOp.join) := by
  constructor
  · intro h
    rw [interrupt_shutdown] at h ⊢
    rcases he1 : (unschedule_stop_loop fail 0 observers).error with _ | e1
    · rw [unschedule_stop_loop_sound fail 0 observers he1] at h ⊢
      simp only at h ⊢
      rcases he2 : (join_loop fail 0 (observers.map (fun o => (o.unschedule_all).stop))).error
        with _ | e2
      · rw [join_loop_sound fail 0 _ he2]
        simp [full_shutdown_trace, List.map_map, Function.comp]
      · rw [he2] at h
        simp at h
    · rw [he1] at h
      simp at h
  · intro h
    rcases he1 : (unschedule_stop_loop fail 0 observers).error with _ | e1
    · rw [he1] at h; cases h
    · have ht : (interrupt_shutdown fail observers).trace =
          (unschedule_stop_loop fail 0 observers).trace := by
        rw [interrupt_shutdown]
        simp [he1]
      refine ⟨ht, ?_⟩
      intro e he
      rw [ht] at he
      have h2 := unschedule_stop_loop_trace_ops fail 0 observers e he
      rcases h2 with h2 | h2 <;> rw [h2] <;> intro hc <;> cases hc

/-- Witness for the amended claim C3 at concrete inputs: with no failing call
two observers produce the full ordered trace, and with a failing unschedule
call on the first observer the shutdown trace is exactly the aborted
unschedule-stop trace. -/
theorem c3_witness :
    ((interrupt_shutdown (fun _ _ => false) [obs_a, obs_b]).observers =
        [obs_a, obs_b].map (fun o => ((o.unschedule_all).stop).join) ∧
      (interrupt_shutdown (fun _ _ => false) [obs_a, obs_b]).trace =
        full_shutdown_trace ([obs_a, obs_b] : List Observer).length) ∧
    (interrupt_shutdown fail_unschedule0 [obs_a, obs_b]).trace =
      (unschedule_stop_loop fail_unschedule0 0 [obs_a, obs_b]).trace :=
  ⟨(c3_amended_theorem (fun _ _ => false) [obs_a, obs_b]).1 (by decide),
    ((c3_amended_theorem fail_unschedule0 [obs_a, obs_b]).2 (by decide)).1⟩

/-- Claim C8 (confirmed): in the shutdown path of `tricks_from`, the
argument-less unschedule call removes all sessions of each observer, and per
the recorded trace each unschedule call of a handle precedes its stop call,
with every join call after all of them. -/
theorem c8_theorem (observers : List Observer) :
    (interrupt_shutdown (fun _ _ => false) observers).error = none ∧
    (((interrupt_shutdown (fun _ _ => false) observers).observers).all
      (fun o => o.sessions.isEmpty && o.stopped)) = true ∧
    (interrupt_shutdown (fun _ _ => false) observers).trace =
      unschedule_stop_trace 0 observers.length ++ join_trace 0 observers.length := by
  rw [interrupt_shutdown_nofail observers]
  refine ⟨rfl, ?_, rfl⟩
  simp only [List.all_eq_true]
  intro o ho
  obtain ⟨o0, _, rfl⟩ := List.mem_map.mp ho
  rfl

/-- Helper: when the scheduling phase of one configuration file raises, the
observers list is unchanged: the observer of the failing file is discarded and
never started. -/
theorem finish_schedule_error (st : TFState) (sysPath : List String)
    (r : SchedState × Option PyError) (st' : TFState) (e : PyError)
    (h : finish_schedule st sysPath r = (st', some e)) :
    st'.observers = st.observers := by
  rcases r with ⟨sst, oe⟩
  cases oe with
  | none => simp [finish_schedule] at h
  | some e0 =>
    rw [finish_schedule] at h
    injection h with h1 h2
    rw [← h1]

/-- Claim C2 is refuted at a concrete input: invoked over a valid first file
and a missing second file, `tricks_from` raises the missing-file error while
the observer started for the first file is already in the Running state, so at
the moment the error is raised the number of running observers created by this
invocation is one, not zero. -/
theorem c2_counterexample :
    tricks_from env_one_good resolve_none inst_ok parent_dir_d "." ':' []
        ["good.yaml", "missing.yaml"]
      = (⟨["."], [⟨[], true, false, false⟩], [], 0⟩,
          some (PyError.ioError "missing.yaml")) ∧
    (⟨[], true, false, false⟩ : Observer).running = true := by decide

/-- Claim C2 (amended): the error for a failing configuration file is raised
before the observer of that file is started — a failing file contributes no
observer to the list — but observers already started for earlier files of the
same invocation remain, so a multi-file invocation can suffer partial
startup. -/
theorem c2_amended_theorem (env : Env)
    (load_class : List String → String → Option String)
    (instantiate : String → List Arg → List (String × Arg) → Option Handler)
    (parent_dir : String → String) (st : TFState) (tricks_file : String)
    (st' : TFState) (e : PyError)
    (h : process_tricks_file env load_class instantiate parent_dir st tricks_file
      = (st', some e)) :
    st'.observers = st.observers := by
  unfold process_tricks_file at h
  split at h
  · injection h with h1 h2; rw [← h1]
  · split at h
    · injection h with h1 h2; rw [← h1]
    · exact finish_schedule_error _ _ _ _ _ h

/-- Witness for the amended claim C2 at a concrete input: a file whose only
trick fails to resolve leaves the observers list unchanged even though the log
and the error state differ. -/
theorem c2_witness :
    (⟨["s"], [obs_a],
        [missing_key_warning "kwargs" "nope", missing_key_warning "args" "nope"],
        3⟩ : TFState).observers
      = (⟨["s"], [obs_a], [], 3⟩ : TFState).observers :=
  c2_amended_theorem env_bad_trick resolve_none inst_ok parent_dir_d
    ⟨["s"], [obs_a], [], 3⟩ "bad.yaml"
    ⟨["s"], [obs_a],
      [missing_key_warning "kwargs" "nope", missing_key_warning "args" "nope"], 3⟩
    (PyError.resolutionError "nope") (by decide)

/-- Claim C7 (confirmed): a `python-path` entry of a configuration document is
prepended to the front of the search path preserving its listed order, with
its first element ending up first, and the tricks of that document are
resolved against the already-prepended search path. -/
theorem c7_theorem (env : Env)
    (load_class : List String → String → Option String)
    (instantiate : String → List Arg → List (String × Arg) → Option Handler)
    (parent_dir : String → String) (st : TFState) (tricks_file : String)
    (config : Config) (tricks : List Trick) (ps : List String)
    (h1 : env.files.lookup tricks_file = some config)
    (h2 : config.tricks = some tricks)
    (h3 : config.pythonPath = some ps) :
    add_to_sys_path ps st.sysPath 0 = ps ++ st.sysPath ∧
    process_tricks_file env load_class instantiate parent_dir st tricks_file =
      finish_schedule st (ps ++ st.sysPath)
        (schedule_tricks (load_class (ps ++ st.sysPath)) instantiate tricks
          (parent_dir tricks_file) ⟨st.log, st.nextId, Observer.new⟩) := by
  refine ⟨add_to_sys_path_zero ps st.sysPath, ?_⟩
  unfold process_tricks_file
  rw [h1]
  simp only
  rw [h2]
  simp only
  rw [h3]
  simp only [add_to_sys_path_zero ps st.sysPath]

/-- Witness for claim C7 at a concrete input: the two `python-path` entries
end up in front of the search path, in order, before the document is
scheduled. -/
theorem c7_witness :
    process_tricks_file env_with_pypath resolve_none inst_ok parent_dir_d
        ⟨["s"], [], [], 0⟩ "t.yaml"
      = finish_schedule ⟨["s"], [], [], 0⟩ (["p1", "p2"] ++ ["s"])
          (schedule_tricks (resolve_none (["p1", "p2"] ++ ["s"])) inst_ok []
            (parent_dir_d "t.yaml") ⟨[], 0, Observer.new⟩) :=
  (c7_theorem env_with_pypath resolve_none inst_ok parent_dir_d
    ⟨["s"], [], [], 0⟩ "t.yaml" ⟨some [], some ["p1", "p2"]⟩ [] ["p1", "p2"]
    (by decide) rfl rfl).2

/-- Claim C9 (confirmed): the branch of `tricks_from` taken when a loaded
configuration lacks the `tricks` key references the name `input_file`, which
is bound neither locally, nor at module level, nor as a builtin, so evaluating
the branch raises a NameError for `input_file` instead of the intended
KeyError. -/
theorem c9_theorem (env : Env)
    (load_class : List String → String → Option String)
    (instantiate : String → List Arg → List (String × Arg) → Option Handler)
    (parent_dir : String → String) (st : TFState) (tricks_file : String)
    (config : Config)
    (h1 : env.files.lookup tricks_file = some config)
    (h2 : config.tricks = none) :
    process_tricks_file env load_class instantiate parent_dir st tricks_file
      = (st, some (PyError.nameError "input_file")) ∧
    eval_raise_missing_tricks = PyError.nameError "input_file" ∧
    ∀ msg, PyError.nameError "input_file" ≠ PyError.keyError msg := by
  have he : eval_raise_missing_tricks = PyError.nameError "input_file" := by decide
  refine ⟨?_, he, fun msg h => PyError.noConfusion h⟩
  unfold process_tricks_file
  rw [h1]
  simp only
  rw [h2, he]

/-- Witness for claim C9 at a concrete input: a configuration file without the
`tricks` key produces the NameError for `input_file`. -/
theorem c9_witness :
    process_tricks_file env_no_tricks_key resolve_none inst_ok parent_dir_d
        ⟨[], [], [], 0⟩ "conf.yaml"
      = (⟨[], [], [], 0⟩, some (PyError.nameError "input_file")) ∧
    eval_raise_missing_tricks = PyError.nameError "input_file" :=
  ⟨(c9_theorem env_no_tricks_key resolve_none inst_ok parent_dir_d
      ⟨[], [], [], 0⟩ "conf.yaml" ⟨none, none⟩ (by decide) rfl).1,
    (c9_theorem env_no_tricks_key resolve_none inst_ok parent_dir_d
      ⟨[], [], [], 0⟩ "conf.yaml" ⟨none, none⟩ (by decide) rfl).2.1⟩

end Watchmedo
